import Mathlib

/-!
Shallow embedding of `fdest/fdest.py` (class `FgcmDesTransmission`).

Python sequences of floats are modelled as `List ℚ`; Python `None` and
attributes that may be unset are modelled with `Option`; raised Python
exceptions are modelled with `Except PyErr`.  A method that mutates the
instance is a function `TransState → args → result × TransState`; an
exception leaves the mutations performed before the raise in place, so
such methods return the post state together with the error.
-/

set_option autoImplicit false
set_option maxRecDepth 8000

namespace Fdest

/-- Python exception kinds raised by the embedded code. -/
inductive PyErr where
  | valueError (msg : String)
  | typeError (msg : String)
  | attributeError (msg : String)
  | indexError (msg : String)
  | keyError (msg : String)
deriving Repr, DecidableEq

/-- A 1-D numpy array of floats, modelled as a list of rationals. -/
abbrev Vec := List ℚ

/-- One extension of the ccd throughput file: the structured table with the
`lambda`, `throughput_avg` and `throughput_ccd` columns.  `throughput_ccd`
is a 2-D array stored as its rows (aligned with `lam`) together with its
numpy column count `shape[1]`. -/
structure CcdBandData where
  lam : Vec
  throughput_avg : Vec
  throughput_ccd : List Vec
  throughput_ccd_ncols : Nat
deriving Repr, DecidableEq

/-- One row of the atmosphere table: the `expnum` column entry and the
`throughput` row. -/
structure AtmRow where
  expnum : Int
  throughput : Vec
deriving Repr, DecidableEq

/-- A `scipy.interpolate.interp1d` object built from 1-D `x` and 1-D `y`. -/
structure Interp1d where
  xs : Vec
  ys : Vec
deriving Repr, DecidableEq

/-- A `scipy.interpolate.interp1d` object built from 1-D `x` and 2-D `y`
(interpolation runs along the last axis of `y`). -/
structure Interp1d2 where
  xs : Vec
  yRows : List Vec
deriving Repr, DecidableEq

/-- `interp1d(x, y)` with the default (linear) kind: `x` and `y` must have
the same length and at least two samples, otherwise construction raises a
`ValueError`.  The throughput tables are stored sorted by wavelength, so
the `assume_sorted=False` re-sorting is the identity and is elided. -/
def interp1dNew (xs ys : Vec) : Except PyErr Interp1d :=
  if xs.length ≠ ys.length then
    .error (.valueError "x and y arrays must be equal in length along interpolation axis.")
  else if xs.length < 2 then
    .error (.valueError "x and y arrays must have at least 2 entries")
  else
    .ok ⟨xs, ys⟩

/-- `interp1d(x, y)` with 2-D `y`: every row of `y` must have the length of
`x`, and at least two samples are needed. -/
def interp1dNew2 (xs : Vec) (yRows : List Vec) : Except PyErr Interp1d2 :=
  if yRows.any (fun r => r.length ≠ xs.length) then
    .error (.valueError "x and y arrays must be equal in length along interpolation axis.")
  else if xs.length < 2 then
    .error (.valueError "x and y arrays must have at least 2 entries")
  else
    .ok ⟨xs, yRows⟩

/-- Piecewise-linear interpolation of zipped samples `(x, y)` at a point
`t` known to be inside the sampled range: walk to the bracketing pair and
interpolate linearly. -/
def interpSearch : List (ℚ × ℚ) → ℚ → ℚ
  | [], _ => 0
  | p0 :: rest, t =>
    match rest with
    | [] => 0
    | p1 :: _ =>
      if t ≤ p1.1 then p0.2 + (p1.2 - p0.2) * (t - p0.1) / (p1.1 - p0.1)
      else interpSearch rest t

/-- Evaluation of an `interp1d` object at one point: the default
`bounds_error=True` raises a `ValueError` outside the sampled range. -/
def interp1dEvalPoint (f : Interp1d) (t : ℚ) : Except PyErr ℚ :=
  match f.xs.head?, f.xs.getLast? with
  | some lo, some hi =>
    if t < lo ∨ hi < t then
      .error (.valueError "A value in x_new is out of the interpolation range.")
    else
      .ok (interpSearch (f.xs.zip f.ys) t)
  | _, _ => .error (.valueError "x array is empty")

/-- Evaluation of an `interp1d` object at a 1-D array of points. -/
def interp1dEval (f : Interp1d) (w : Vec) : Except PyErr Vec :=
  w.mapM (interp1dEvalPoint f)

/-- Evaluation of a 2-D `interp1d` object: row-wise evaluation. -/
def interp1dEval2 (f : Interp1d2) (w : Vec) : Except PyErr (List Vec) :=
  f.yRows.mapM (fun r => interp1dEval ⟨f.xs, r⟩ w)

/-- `ifunc(self._wavelengths, j)` in `set_wavelengths`: `interp1d.__call__`
accepts a single positional argument, so the extra `j` makes the call raise
a `TypeError` before anything is computed. -/
def interp1dCallExtraArg (_f : Interp1d) (_w : Vec) (_j : Nat) : Except PyErr Vec :=
  .error (.typeError "interp1d call takes 2 positional arguments but 3 were given")

/-- `1e100`, the upper clip bound used by the source. -/
def bigBound : ℚ := ((10 ^ 100 : ℕ) : ℚ)

/-- `np.clip(v, lo, hi)` on a 1-D array: element-wise
`min(max(x, lo), hi)`, spelled with explicit comparisons. -/
def npClip (v : Vec) (lo hi : ℚ) : Vec :=
  v.map fun x =>
    let m := if x ≤ lo then lo else x
    if m ≤ hi then m else hi

/-- `np.clip(v)` with neither bound given, as written at the per-detector
call site: numpy rejects the call (no bound supplied), modelled as a
`TypeError`.  Unreachable in the embedded code because the interpolant call
on the same line raises first. -/
def npClipNoBounds (_v : Vec) : Except PyErr Vec :=
  .error (.typeError "np.clip requires min or max bounds")

/-- `np.allclose(b)` where `b` is the boolean array `wavelengths ==
self._wavelengths`: `allclose` needs two positional arguments, so the
single-argument call raises a `TypeError`. -/
def npAllcloseOneArg (_b : List Bool) : Except PyErr Bool :=
  .error (.typeError "np.allclose missing required argument b")

/-- `np.zeros((n, m))` as a list of `n` rows of `m` zeros. -/
def npZeros (n m : Nat) : List Vec :=
  List.replicate n (List.replicate m 0)

/-- Element-wise product of two 1-D arrays with numpy broadcasting: equal
lengths multiply element-wise, a length-1 operand broadcasts, anything
else raises a `ValueError`. -/
def npMulVec (a b : Vec) : Except PyErr Vec :=
  if a.length = b.length then .ok ((a.zip b).map fun p => p.1 * p.2)
  else if a.length = 1 then .ok (b.map fun y => a.headD 0 * y)
  else if b.length = 1 then .ok (a.map fun x => x * b.headD 0)
  else .error (.valueError "operands could not be broadcast together")

/-- Product of a 2-D array with a 1-D array: numpy broadcasts row-wise. -/
def npMulMatVec (m : List Vec) (v : Vec) : Except PyErr (List Vec) :=
  m.mapM (fun r => npMulVec r v)

/-- Insertion into a Python dict modelled as an insertion-ordered
association list: overwriting a key keeps its position. -/
def dictInsert {α : Type} (d : List (String × α)) (k : String) (v : α) :
    List (String × α) :=
  match d with
  | [] => [(k, v)]
  | (k0, v0) :: rest =>
    if k0 = k then (k, v) :: rest else (k0, v0) :: dictInsert rest k v

/-- Python dict lookup, `d[k]` (`none` when the key is absent). -/
def dictGet? {α : Type} (d : List (String × α)) (k : String) : Option α :=
  (d.find? (fun p => p.1 = k)).map (fun p => p.2)

/-- Python `k in d` membership test. -/
def dictMem {α : Type} (d : List (String × α)) (k : String) : Bool :=
  d.any (fun p => p.1 = k)

/-- The instance state of `FgcmDesTransmission`.  The two `band_*_interp`
fields use `none` for "attribute never assigned" (`__init__` does not set
them; only a `set_wavelengths` call does). -/
structure TransState where
  ccd_data : Option (List (String × CcdBandData))
  atm_data : Option (List AtmRow)
  bands : List String
  nccd : Option Nat
  atm_wavelengths : Vec
  atm_std : Vec
  wavelengths : Option Vec
  std_ifunc : Option Interp1d
  band_tput_interp : Option (List (String × Vec))
  band_ccd_interp : Option (List (String × List Vec))
deriving Repr, DecidableEq

/-- `extname.split('_')[0]`: the part of the extension name before the
first underscore (the whole name when it has none), written at character
level so that it evaluates definitionally. -/
def bandOfExtname (extname : String) : String :=
  String.mk (extname.toList.takeWhile fun c => c ≠ '_')

/-- The loop of `_read_ccd_file`: for each extension, key the table by the
part of the extension name before the first underscore, append that band
to `self.bands`, and record `self.nccd` from the first table processed
(`throughput_ccd.shape[1]`). -/
def readCcdLoop (hdus : List (String × CcdBandData))
    (ccd : List (String × CcdBandData)) (bands : List String)
    (nccd : Option Nat) :
    List (String × CcdBandData) × List String × Option Nat :=
  match hdus with
  | [] => (ccd, bands, nccd)
  | (extname, tbl) :: rest =>
    let b := bandOfExtname extname
    let ccd1 := dictInsert ccd b tbl
    let bands1 := bands ++ [b]
    let nccd1 := match nccd with
      | none => some tbl.throughput_ccd_ncols
      | some k => some k
    readCcdLoop rest ccd1 bands1 nccd1

/-- `__init__(ccd_file, atm_file)`, taking the parsed file contents.

`_read_ccd_file` completes: it stores the band tables, the band list and
the detector count on `self` and returns `None`, and `__init__` rebinds
`self._ccd_data` to that `None`.  `_read_atm_file` then reads row 0 and
row 1 of the `throughput` field (an atmosphere table with fewer than two
rows raises `IndexError` there) and finally runs
`self._atm_data = atm_data[2:, :]`: `fitsio.read` returns a
one-dimensional structured array, and indexing it with the two-element
tuple `2:, :` raises `IndexError` (too many indices for a 1-D array).
Construction therefore raises on every input: no instance is ever
produced, `_read_atm_file` never returns, `self._atm_data` is never
rebound, and the half-built object (with `_ccd_data` already rebound to
`None` and `_atm_data`, `_wavelengths`, `_std_ifunc` never assigned) is
abandoned inside the raising constructor. -/
def initState (ccdHdus : List (String × CcdBandData)) (atmRows : List AtmRow) :
    Except PyErr TransState :=
  let _r := readCcdLoop ccdHdus [] [] none
  match atmRows with
  | _ :: _ :: _ =>
    .error (.indexError
      "too many indices for array: array is 1-dimensional, but 2 were indexed")
  | _ => .error (.indexError "index out of bounds for axis 0")

/-- Extraction of column `j` of `throughput_ccd`
(`self._ccd_data[band]['throughput_ccd'][:, j]`): an out-of-range column
index raises an `IndexError`. -/
def getColumn (tbl : CcdBandData) (j : Nat) : Except PyErr Vec :=
  if j < tbl.throughput_ccd_ncols then
    .ok (tbl.throughput_ccd.map fun r => r.getD j 0)
  else
    .error (.indexError "index out of bounds for axis 1")

/-- In-place column assignment `mat[:, j] = vals`.  Dead on every path of
the embedded code (the calls producing `vals` raise first), kept to mirror
the assignment target of the source line. -/
def setColumn (mat : List Vec) (j : Nat) (vals : Vec) : List Vec :=
  (mat.zip vals).map fun p => p.1.set j p.2.1

/-- The inner loop of `set_wavelengths`, `for j in range(self.nccd)`:
build an interpolant from `lambda` and detector column `j`, then evaluate
`np.clip(ifunc(self._wavelengths, j))` into column `j` of the band
matrix.  The interpolant call carries the extra positional argument `j`
and therefore raises on the first iteration. -/
def ccdInner (tbl : CcdBandData) (w : Vec) (js : List Nat) (mat : List Vec) :
    Except PyErr (List Vec) :=
  match js with
  | [] => .ok mat
  | j :: rest => do
    let col ← getColumn tbl j
    let ifunc ← interp1dNew tbl.lam col
    let vals ← interp1dCallExtraArg ifunc w j
    let clipped ← npClipNoBounds vals
    ccdInner tbl w rest (setColumn mat j clipped)

/-- The per-band rebuild loop of `set_wavelengths` over `self.bands`.
Returns the error raised, if any, together with the
`self._band_tput_interp` and `self._band_ccd_interp` dicts as the loop
left them (a raise keeps the entries inserted so far).  Subscripting
`self._ccd_data` while it is `None` raises a `TypeError`; using
`self.nccd` as a shape or range bound while it is `None` raises a
`TypeError`. -/
def swLoop (ccd : Option (List (String × CcdBandData))) (nccd : Option Nat)
    (w : Vec) (bands : List String) (tput : List (String × Vec))
    (cmat : List (String × List Vec)) :
    Option PyErr × List (String × Vec) × List (String × List Vec) :=
  match bands with
  | [] => (none, tput, cmat)
  | band :: rest =>
    match ccd with
    | none => (some (.typeError "NoneType object is not subscriptable"), tput, cmat)
    | some d =>
      match dictGet? d band with
      | none => (some (.keyError band), tput, cmat)
      | some tbl =>
        match interp1dNew tbl.lam tbl.throughput_avg with
        | .error e => (some e, tput, cmat)
        | .ok ifunc =>
          match interp1dEval ifunc w with
          | .error e => (some e, tput, cmat)
          | .ok vals =>
            let tput1 := dictInsert tput band (npClip vals 0 bigBound)
            match nccd with
            | none =>
              (some (.typeError "NoneType cannot be interpreted as an integer"), tput1, cmat)
            | some k =>
              let cmat1 := dictInsert cmat band (npZeros w.length k)
              match ccdInner tbl w (List.range k) (npZeros w.length k) with
              | .error e => (some e, tput1, cmat1)
              | .ok m => swLoop ccd nccd w rest tput1 (dictInsert cmat1 band m)

/-- The body of `set_wavelengths` past the cached-grid check: store
`np.atleast_1d(wavelengths)` (the identity on a 1-D sequence), reset both
interpolation dicts to empty, and run the per-band rebuild loop. -/
def setWavelengthsBody (s : TransState) (w : Vec) : Option PyErr × TransState :=
  let r := swLoop s.ccd_data s.nccd w s.bands [] []
  (r.1, { s with wavelengths := some w
                 band_tput_interp := some r.2.1
                 band_ccd_interp := some r.2.2 })

/-- `set_wavelengths(wavelengths)`.  When a grid is cached and the lengths
match, the source runs `np.allclose(wavelengths == self._wavelengths)`:
`allclose` applied to the single boolean comparison array, which raises a
`TypeError` before the early return can trigger. -/
def setWavelengths (s : TransState) (w : Vec) : Option PyErr × TransState :=
  match s.wavelengths with
  | some cached =>
    if w.length = cached.length then
      match npAllcloseOneArg ((w.zip cached).map fun p => decide (p.1 = p.2)) with
      | .error e => (some e, s)
      | .ok b => if b then (none, s) else setWavelengthsBody s w
    else setWavelengthsBody s w
  | none => setWavelengthsBody s w

/-- `get_wavelengths()`: return the cached grid. -/
def getWavelengths (s : TransState) : Option Vec × TransState :=
  (s.wavelengths, s)

/-- The part of `get_transmission` after the optional `set_wavelengths`
call; it only reads the state.  The exposure lookup subscripts
`self._atm_data` first, so a `None` atmosphere table raises a `TypeError`
there; the membership test `band not in self._band_ccd_interp` raises an
`AttributeError` when the attribute was never assigned. -/
def getTransmissionBody (s : TransState) (band : String) (expnum : Int)
    (ccdnum : Int) : Except PyErr (List Vec) :=
  match s.atm_data with
  | none => .error (.typeError "NoneType object is not subscriptable")
  | some rows =>
    let u := ((rows.enum.filter fun p => p.2.expnum = expnum).map fun p => p.1)
    if u.length = 0 then
      .error (.valueError ("Exposure " ++ toString expnum ++ " not found in atm table."))
    else
      let ccd_index : Int := ccdnum - 1
      if ccd_index < 0 then
        .error (.valueError ("ccdnum " ++ toString ccdnum ++ " out of range."))
      else
        match s.nccd with
        | none => .error (.typeError "int and NoneType comparison not supported")
        | some k =>
          if (k : Int) ≤ ccd_index then
            .error (.valueError ("ccdnum " ++ toString ccdnum ++ " out of range."))
          else
            match s.band_ccd_interp with
            | none =>
              .error (.attributeError "FgcmDesTransmission object has no attribute band_ccd_interp")
            | some cmap =>
              match dictGet? cmap band with
              | none =>
                .error (.valueError ("band " ++ band ++ " not in throughput table."))
              | some mat =>
                let selRows := u.map fun i => (rows.getD i ⟨0, []⟩).throughput
                match interp1dNew2 s.atm_wavelengths selRows with
                | .error e => .error e
                | .ok f2 =>
                  match s.wavelengths with
                  | none => .error (.typeError "interp1d argument must be a sequence of numbers")
                  | some w =>
                    match interp1dEval2 f2 w with
                    | .error e => .error e
                    | .ok atmRows =>
                      let atm := atmRows.map fun r => npClip r 0 bigBound
                      let colv := mat.map fun r => r.getD ccd_index.toNat 0
                      match npMulMatVec atm colv with
                      | .error e => .error e
                      | .ok res => .ok res

/-- `get_transmission(band, expnum, ccdnum, wavelengths=None)`: an explicit
`wavelengths` argument first triggers `set_wavelengths`; afterwards the
method only reads state. -/
def getTransmission (s : TransState) (band : String) (expnum : Int)
    (ccdnum : Int) (wavelengthsArg : Option Vec) :
    Except PyErr (List Vec) × TransState :=
  match wavelengthsArg with
  | some w =>
    match setWavelengths s w with
    | (some e, s1) => (.error e, s1)
    | (none, s1) => (getTransmissionBody s1 band expnum ccdnum, s1)
  | none => (getTransmissionBody s band expnum ccdnum, s)

/-- The lazy build of `self._std_ifunc` at the top of
`get_std_transmission`: memoized across calls, never invalidated. -/
def stdIfuncStep (s : TransState) : Except PyErr Interp1d × TransState :=
  match s.std_ifunc with
  | some f => (.ok f, s)
  | none =>
    match interp1dNew s.atm_wavelengths s.atm_std with
    | .error e => (.error e, s)
    | .ok f => (.ok f, { s with std_ifunc := some f })

/-- The read-only tail of `get_std_transmission`: band membership check on
`self._band_tput_interp` (`AttributeError` when never assigned), standard
atmosphere evaluation on the current grid with clipping, and the product
with the cached per-band average throughput. -/
def getStdBody (s : TransState) (f : Interp1d) (band : String) :
    Except PyErr Vec :=
  match s.band_tput_interp with
  | none =>
    .error (.attributeError "FgcmDesTransmission object has no attribute band_tput_interp")
  | some tmap =>
    match dictGet? tmap band with
    | none => .error (.valueError ("band " ++ band ++ " not in throughput table."))
    | some tv =>
      match s.wavelengths with
      | none => .error (.typeError "interp1d argument must be a sequence of numbers")
      | some w =>
        match interp1dEval f w with
        | .error e => .error e
        | .ok av =>
          match npMulVec (npClip av 0 bigBound) tv with
          | .error e => .error e
          | .ok res => .ok res

/-- `get_std_transmission(band, wavelengths=None)`: build the memoized
standard-atmosphere interpolant if needed, run `set_wavelengths` when an
explicit grid is given, then the read-only tail. -/
def getStdTransmission (s : TransState) (band : String)
    (wavelengthsArg : Option Vec) : Except PyErr Vec × TransState :=
  match stdIfuncStep s with
  | (.error e, s0) => (.error e, s0)
  | (.ok f, s0) =>
    match wavelengthsArg with
    | some w =>
      match setWavelengths s0 w with
      | (some e, s1) => (.error e, s1)
      | (none, s1) => (getStdBody s1 f band, s1)
    | none => (getStdBody s0 f band, s0)

/-! Concrete table contents used to evaluate the embedded code.  The
numeric payload is a miniature version of the test fixtures: band tables
sampled at 3000 and 11000 Angstroms, one detector column, and an
atmosphere table whose per-exposure rows contain exposure 226650. -/

/-- A miniature band extension table with two wavelength samples and one
detector column. -/
def gBandTbl : CcdBandData :=
  { lam := [3000, 11000]
    throughput_avg := [1, 1]
    throughput_ccd := [[1], [1]]
    throughput_ccd_ncols := 1 }

/-- A ccd throughput file with the single extension `g_throughput`. -/
def ccdDemo : List (String × CcdBandData) := [("g_throughput", gBandTbl)]

/-- A ccd throughput file with the five DES extensions g, r, i, z, Y. -/
def ccd5 : List (String × CcdBandData) :=
  [("g_throughput", gBandTbl), ("r_throughput", gBandTbl),
   ("i_throughput", gBandTbl), ("z_throughput", gBandTbl),
   ("Y_throughput", gBandTbl)]

/-- An atmosphere table: row 0 the wavelengths, row 1 the standard
atmosphere, row 2 the curve of exposure 226650. -/
def atmDemo : List AtmRow :=
  [⟨0, [3000, 11000]⟩, ⟨0, [1, 1]⟩, ⟨226650, [1, 1]⟩]

/-- A hypothetical instance state shaped like the one claim C1 presupposes
`__init__` produces from `ccdDemo` and `atmDemo`: band list and
atmosphere curves recorded and both table attributes at `None`.  No such
state is actually constructed — `__init__` raises `IndexError` inside
`_read_atm_file` — so this anchors method-level, counterfactual
demonstrations only. -/
def sDemo : TransState :=
  { ccd_data := none
    atm_data := none
    bands := ["g"]
    nccd := some 1
    atm_wavelengths := [3000, 11000]
    atm_std := [1, 1]
    wavelengths := none
    std_ifunc := none
    band_tput_interp := none
    band_ccd_interp := none }

/-- A hypothetical instance state for an instrument file with no band
extension: the one shape in which the rebuild loop of `set_wavelengths`
has nothing to index.  Like every instance state it is unreachable —
construction raises `IndexError` in `_read_atm_file` regardless of the
instrument file — and it anchors method-level demonstrations only. -/
def sNoBands : TransState :=
  { sDemo with bands := [], nccd := none }

/-- A state with the band tables still attached, as `_read_ccd_file`
left them before `__init__` discarded the dict: used to exercise the
per-detector rebuild in isolation from the `__init__` defect. -/
def sWithTables : TransState :=
  { sDemo with ccd_data := some [("g", gBandTbl)]
               atm_data := some [⟨226650, [1, 1]⟩] }

/-- The interpolation cache holds no per-band entry: each cache attribute
is either never assigned or an empty dict. -/
def cacheUnpopulated (s : TransState) : Prop :=
  (s.band_tput_interp = none ∨ s.band_tput_interp = some []) ∧
  (s.band_ccd_interp = none ∨ s.band_ccd_interp = some [])

/-- The table data loaded at construction is identical in two states:
the instrument dict, the atmosphere rows, the band list, the detector
count, and the atmospheric wavelength and standard curves. -/
def framePreserved (s t : TransState) : Prop :=
  t.ccd_data = s.ccd_data ∧ t.atm_data = s.atm_data ∧ t.bands = s.bands ∧
  t.nccd = s.nccd ∧ t.atm_wavelengths = s.atm_wavelengths ∧
  t.atm_std = s.atm_std

theorem framePreserved_refl (s : TransState) : framePreserved s s :=
  ⟨rfl, rfl, rfl, rfl, rfl, rfl⟩

theorem framePreserved_trans {s t u : TransState} (h1 : framePreserved s t)
    (h2 : framePreserved t u) : framePreserved s u :=
  ⟨h2.1.trans h1.1, h2.2.1.trans h1.2.1, h2.2.2.1.trans h1.2.2.1,
   h2.2.2.2.1.trans h1.2.2.2.1, h2.2.2.2.2.1.trans h1.2.2.2.2.1,
   h2.2.2.2.2.2.trans h1.2.2.2.2.2⟩

/-- `set_wavelengths` only writes the grid and the two cache dicts. -/
theorem setWavelengths_frame (s : TransState) (w : Vec) :
    framePreserved s (setWavelengths s w).2 := by
  rcases hw : s.wavelengths with _ | cached
  · simp [setWavelengths, hw, setWavelengthsBody, framePreserved]
  · by_cases hl : w.length = cached.length
    · simp [setWavelengths, hw, hl, npAllcloseOneArg, framePreserved]
    · simp [setWavelengths, hw, hl, setWavelengthsBody, framePreserved]

/-- The lazy standard-interpolant build only writes `self._std_ifunc`. -/
theorem stdIfuncStep_frame (s : TransState) : framePreserved s (stdIfuncStep s).2 := by
  rcases hsf : s.std_ifunc with _ | f
  · rcases hni : interp1dNew s.atm_wavelengths s.atm_std with e | f
    · simp [stdIfuncStep, hsf, hni, framePreserved]
    · simp [stdIfuncStep, hsf, hni, framePreserved]
  · simp [stdIfuncStep, hsf, framePreserved]

/-- `get_transmission` reads the tables and only mutates through its
optional `set_wavelengths` call. -/
theorem getTransmission_frame (s : TransState) (band : String) (expnum ccdnum : Int)
    (wopt : Option Vec) :
    framePreserved s (getTransmission s band expnum ccdnum wopt).2 := by
  cases wopt with
  | none => exact framePreserved_refl s
  | some w =>
    have h := setWavelengths_frame s w
    rcases hp : setWavelengths s w with ⟨err, s1⟩
    rw [hp] at h
    cases err <;> simpa [getTransmission, hp] using h

/-- `get_std_transmission` reads the tables and only mutates through the
lazy standard-interpolant build and its optional `set_wavelengths` call. -/
theorem getStdTransmission_frame (s : TransState) (band : String)
    (wopt : Option Vec) :
    framePreserved s (getStdTransmission s band wopt).2 := by
  have hstep := stdIfuncStep_frame s
  rcases hp : stdIfuncStep s with ⟨r, s0⟩
  rw [hp] at hstep
  cases r with
  | error e => simpa [getStdTransmission, hp] using hstep
  | ok f =>
    cases wopt with
    | none => simpa [getStdTransmission, hp] using hstep
    | some w =>
      have hsw := setWavelengths_frame s0 w
      rcases hq : setWavelengths s0 w with ⟨err, s1⟩
      rw [hq] at hsw
      cases err
      all_goals simp [getStdTransmission, hp, hq]
      all_goals exact framePreserved_trans hstep hsw

/-- On a state whose `_ccd_data` was discarded and whose band list is
non-empty, `set_wavelengths` always raises: either the defective
one-argument `np.allclose` call on the cached-grid fast path, or the
subscript of `None` at the first band of the rebuild loop. -/
theorem setWavelengths_raises (s : TransState) (w : Vec)
    (hccd : s.ccd_data = none) (hb : s.bands ≠ []) :
    ∃ e, (setWavelengths s w).1 = some e := by
  rcases hbs : s.bands with _ | ⟨b, rest⟩
  · exact absurd hbs hb
  · rcases hw : s.wavelengths with _ | cached
    · exact ⟨PyErr.typeError "NoneType object is not subscriptable",
        by simp [setWavelengths, hw, setWavelengthsBody, hccd, hbs, swLoop]⟩
    · by_cases hl : w.length = cached.length
      · exact ⟨PyErr.typeError "np.allclose missing required argument b",
          by simp [setWavelengths, hw, hl, npAllcloseOneArg]⟩
      · exact ⟨PyErr.typeError "NoneType object is not subscriptable",
          by simp [setWavelengths, hw, hl, setWavelengthsBody, hccd, hbs, swLoop]⟩

/-- Under the same hypotheses, a `set_wavelengths` call leaves the
interpolation cache without a single band entry: the fast path raises
before touching it and the rebuild path resets it to empty dicts and
raises before the first insertion. -/
theorem setWavelengths_cache (s : TransState) (w : Vec)
    (hccd : s.ccd_data = none) (hb : s.bands ≠ []) (hc : cacheUnpopulated s) :
    cacheUnpopulated (setWavelengths s w).2 := by
  rcases hbs : s.bands with _ | ⟨b, rest⟩
  · exact absurd hbs hb
  · rcases hw : s.wavelengths with _ | cached
    · simp [setWavelengths, hw, setWavelengthsBody, hccd, hbs, swLoop, cacheUnpopulated]
    · by_cases hl : w.length = cached.length
      · simpa [setWavelengths, hw, hl, npAllcloseOneArg] using hc
      · simp [setWavelengths, hw, hl, setWavelengthsBody, hccd, hbs, swLoop,
          cacheUnpopulated]

/-- A `get_transmission` call with an explicit grid propagates the
`set_wavelengths` failure and its post state. -/
theorem getTransmission_of_sw_error (s : TransState) (w : Vec) (band : String)
    (expnum ccdnum : Int) (e : PyErr) (h : (setWavelengths s w).1 = some e) :
    getTransmission s band expnum ccdnum (some w) =
      (Except.error e, (setWavelengths s w).2) := by
  rcases hp : setWavelengths s w with ⟨err, s1⟩
  rw [hp] at h
  obtain rfl : err = some e := h
  simp [getTransmission, hp]

/-- A `get_std_transmission` call with an explicit grid raises whenever the
state satisfies the discarded-tables hypotheses, whatever the lazy
standard-interpolant build does, and leaves the cache unpopulated. -/
theorem getStdTransmission_some_raises (s : TransState) (w : Vec) (band : String)
    (hccd : s.ccd_data = none) (hb : s.bands ≠ []) (hc : cacheUnpopulated s) :
    ∃ e, (getStdTransmission s band (some w)).1 = Except.error e ∧
      cacheUnpopulated (getStdTransmission s band (some w)).2 := by
  rcases hsf : s.std_ifunc with _ | f
  · rcases hni : interp1dNew s.atm_wavelengths s.atm_std with e | f
    · exact ⟨e, by simp [getStdTransmission, stdIfuncStep, hsf, hni], by
        simpa [getStdTransmission, stdIfuncStep, hsf, hni] using hc⟩
    · obtain ⟨e, he⟩ :=
        setWavelengths_raises { s with std_ifunc := some f } w hccd hb
      have hcache :=
        setWavelengths_cache { s with std_ifunc := some f } w hccd hb hc
      rcases hp : setWavelengths { s with std_ifunc := some f } w with ⟨err, s1⟩
      rw [hp] at he hcache
      obtain rfl : err = some e := he
      exact ⟨e, by simp [getStdTransmission, stdIfuncStep, hsf, hni, hp], by
        simpa [getStdTransmission, stdIfuncStep, hsf, hni, hp] using hcache⟩
  · obtain ⟨e, he⟩ := setWavelengths_raises s w hccd hb
    have hcache := setWavelengths_cache s w hccd hb hc
    rcases hp : setWavelengths s w with ⟨err, s1⟩
    rw [hp] at he hcache
    obtain rfl : err = some e := he
    exact ⟨e, by simp [getStdTransmission, stdIfuncStep, hsf, hp], by
      simpa [getStdTransmission, stdIfuncStep, hsf, hp] using hcache⟩

/-- Construction always raises: an atmosphere table with fewer than two
rows fails the row-0/row-1 reads of `_read_atm_file`, and any larger
table fails the `atm_data[2:, :]` slice, which indexes the
one-dimensional structured array with two indices. -/
theorem initState_always_raises (ccdHdus : List (String × CcdBandData))
    (atmRows : List AtmRow) :
    ∃ msg, initState ccdHdus atmRows = Except.error (PyErr.indexError msg) := by
  match atmRows with
  | [] => exact ⟨_, rfl⟩
  | [r0] => exact ⟨_, rfl⟩
  | r0 :: r1 :: rr => exact ⟨_, rfl⟩

/-- Counterexample to claim C1: at the demo tables, `__init__` does not
complete with the table attributes rebound to `None` — `_read_atm_file`
raises `IndexError` at the `atm_data[2:, :]` slice before returning — so
no `FgcmDesTransmission` instance exists on which `set_wavelengths`
could be invoked. -/
theorem claim_c1_counterexample :
    initState ccdDemo atmDemo =
      Except.error (PyErr.indexError
        "too many indices for array: array is 1-dimensional, but 2 were indexed") :=
  rfl

/-- Claim C1 amended: `__init__` never completes.  `_read_ccd_file` does
run and the band tables it stored are discarded when `__init__` rebinds
`self._ccd_data` to its `None` return, but `_read_atm_file` then raises
`IndexError` at the `atm_data[2:, :]` slice before it can return, so
construction raises on every input (first conjunct), no instance exists,
`set_wavelengths` is never invoked on an instance, and the interpolation
cache is never populated.  Counterfactually, on any state shaped like the
presupposed broken instance (band tables discarded, at least one band,
cache unpopulated), every `set_wavelengths` call — direct or triggered by
a `wavelengths` argument of `get_transmission` or `get_std_transmission`
— would raise, leave the cache without a band entry, and preserve those
hypotheses. -/
theorem claim_c1_amended (s : TransState) (w : Vec)
    (hccd : s.ccd_data = none) (hb : s.bands ≠ []) (hcache : cacheUnpopulated s) :
    (∀ ccdHdus atmRows, ∃ msg,
        initState ccdHdus atmRows = Except.error (PyErr.indexError msg)) ∧
    (∃ e, (setWavelengths s w).1 = some e) ∧
    cacheUnpopulated (setWavelengths s w).2 ∧
    (setWavelengths s w).2.ccd_data = none ∧ (setWavelengths s w).2.bands = s.bands ∧
    (∀ band expnum ccdnum, ∃ e,
        (getTransmission s band expnum ccdnum (some w)).1 = Except.error e ∧
        cacheUnpopulated (getTransmission s band expnum ccdnum (some w)).2) ∧
    (∀ band, ∃ e,
        (getStdTransmission s band (some w)).1 = Except.error e ∧
        cacheUnpopulated (getStdTransmission s band (some w)).2) := by
  refine ⟨initState_always_raises, setWavelengths_raises s w hccd hb,
    setWavelengths_cache s w hccd hb hcache, ?_, ?_, ?_, ?_⟩
  · exact (setWavelengths_frame s w).1.trans hccd
  · exact (setWavelengths_frame s w).2.2.1
  · intro band expnum ccdnum
    obtain ⟨e, he⟩ := setWavelengths_raises s w hccd hb
    have hcc := setWavelengths_cache s w hccd hb hcache
    rw [getTransmission_of_sw_error s w band expnum ccdnum e he]
    exact ⟨e, rfl, hcc⟩
  · intro band
    exact getStdTransmission_some_raises s w band hccd hb hcache

/-- Witness for the amended claim C1 at the hypothetical discarded-table
state and the grid `[5000]`. -/
theorem claim_c1_witness :
    sDemo.ccd_data = none ∧ sDemo.bands ≠ [] ∧ cacheUnpopulated sDemo ∧
    (∃ e, (setWavelengths sDemo [5000]).1 = some e) :=
  ⟨rfl, by simp [sDemo], ⟨Or.inl rfl, Or.inl rfl⟩,
    (claim_c1_amended sDemo [5000] rfl (by simp [sDemo])
      ⟨Or.inl rfl, Or.inl rfl⟩).2.1⟩

/-- Claim C3: whenever a `set_wavelengths(g)` call completes without
raising, `get_wavelengths()` returns exactly `g`: the only completing path
stores `np.atleast_1d(g)`, the identity on a non-empty 1-D grid. -/
theorem claim_c3_grid_roundtrip (s : TransState) (g : Vec) (_hg : g ≠ [])
    (hok : (setWavelengths s g).1 = none) :
    (getWavelengths (setWavelengths s g).2).1 = some g := by
  rcases hw : s.wavelengths with _ | cached
  · simp [setWavelengths, hw, setWavelengthsBody, getWavelengths]
  · by_cases hl : g.length = cached.length
    · rw [setWavelengths] at hok
      simp [hw, hl, npAllcloseOneArg] at hok
    · simp [setWavelengths, hw, hl, setWavelengthsBody, getWavelengths]

/-- Witness for claim C3: on the hypothetical band-less instance state,
`set_wavelengths([3000, 4000])` completes and `get_wavelengths()` returns
that grid. -/
theorem claim_c3_witness :
    ([3000, 4000] : Vec) ≠ [] ∧ (setWavelengths sNoBands [3000, 4000]).1 = none ∧
    (getWavelengths (setWavelengths sNoBands [3000, 4000]).2).1 =
      some [3000, 4000] :=
  ⟨by simp, rfl, claim_c3_grid_roundtrip sNoBands [3000, 4000] (by simp) rfl⟩

/-- Claim C10: no query operation mutates the tables read at construction
— the instrument dict, the atmosphere rows, the band list, the detector
count, and the atmospheric wavelength and standard curves are unchanged by
`get_transmission`, `get_std_transmission`, `get_wavelengths` and
`set_wavelengths`, on every state and for every argument, whether the call
raises or returns; all side effects sit in the remaining fields, which are
exactly the wavelength grid, the two per-band cache dicts and the memoized
standard-atmosphere interpolant. -/
theorem claim_c10_tables_immutable (s : TransState) (band band2 : String)
    (expnum ccdnum : Int) (wopt wopt2 : Option Vec) (w : Vec) :
    framePreserved s (getTransmission s band expnum ccdnum wopt).2 ∧
    framePreserved s (getStdTransmission s band2 wopt2).2 ∧
    framePreserved s (getWavelengths s).2 ∧
    framePreserved s (setWavelengths s w).2 :=
  ⟨getTransmission_frame s band expnum ccdnum wopt,
   getStdTransmission_frame s band2 wopt2,
   framePreserved_refl s,
   setWavelengths_frame s w⟩

/-- Claim C2 fails on the code twice over.  No engine on which the
repeated call could run is ever constructed: even for an instrument file
with no band extension, `__init__` raises `IndexError` in
`_read_atm_file` (first conjunct).  And at method level, on the
hypothetical band-less state the first `set_wavelengths([3000, 4000])`
completes and caches the grid, but repeating the identical call raises a
`TypeError`, because the cached-grid comparison runs `np.allclose` on
the single boolean array `wavelengths == self._wavelengths` instead of
returning without rebuilding. -/
theorem claim_c2_second_call_raises :
    initState [] atmDemo =
      Except.error (PyErr.indexError
        "too many indices for array: array is 1-dimensional, but 2 were indexed") ∧
    (setWavelengths sNoBands [3000, 4000]).1 = none ∧
    (setWavelengths (setWavelengths sNoBands [3000, 4000]).2 [3000, 4000]).1 =
      some (PyErr.typeError "np.allclose missing required argument b") :=
  ⟨rfl, rfl, rfl⟩

/-- Claim C4 fails on the code: the "exposure not found" `ValueError` it
mandates is never raised because `get_transmission` is never reachable —
constructing the engine from the demo tables raises `IndexError` inside
`_read_atm_file` (the `atm_data[2:, :]` slice indexes the 1-D structured
array with two indices), even though exposure 999999999 is indeed absent
from the per-exposure rows of the file. -/
theorem claim_c4_construction_precludes_exposure_check :
    ((atmDemo.drop 2).all fun r => r.expnum ≠ 999999999) = true ∧
    initState ccdDemo atmDemo =
      Except.error (PyErr.indexError
        "too many indices for array: array is 1-dimensional, but 2 were indexed") :=
  ⟨rfl, rfl⟩

/-- Claim C5 fails on the code: exposure 226650 is present in the
per-exposure rows of the demo atmosphere file and detector 100 is outside
`[1, 1]` (one detector column), yet the "out of range" `ValueError` is
never raised because construction itself raises `IndexError` in
`_read_atm_file`, so the detector validation is unreachable. -/
theorem claim_c5_construction_precludes_detector_check :
    ((atmDemo.drop 2).any fun r => r.expnum = 226650) = true ∧
    gBandTbl.throughput_ccd_ncols = 1 ∧
    initState ccdDemo atmDemo =
      Except.error (PyErr.indexError
        "too many indices for array: array is 1-dimensional, but 2 were indexed") :=
  ⟨rfl, rfl, rfl⟩

/-- Claim C6 fails on the code: the band "nonexistent" is absent from the
bands of the demo instrument file, yet neither `get_transmission` nor
`get_std_transmission` can raise the "band not in throughput table"
`ValueError`, because no engine is ever constructed — `__init__` raises
`IndexError` in `_read_atm_file` before either band check could run. -/
theorem claim_c6_construction_precludes_band_check :
    ((readCcdLoop ccdDemo [] [] none).2.1.contains "nonexistent") = false ∧
    initState ccdDemo atmDemo =
      Except.error (PyErr.indexError
        "too many indices for array: array is 1-dimensional, but 2 were indexed") :=
  ⟨rfl, rfl⟩

/-- Claim C7 fails on the code: even on a state that still holds a valid
instrument table, the per-detector rebuild raises a `TypeError` at
`np.clip(ifunc(self._wavelengths, j))` (an extra positional argument to
the interpolant, and a clip call without bounds), so no clamped
per-detector instrumental values are ever stored — the band matrix is
left as the zeros placeholder — and no `get_transmission` call can reach
the clamped product the claim describes.  The average-throughput entry
built one line earlier with the correct `np.clip(…, 0.0, 1e100)` call
does get stored, which isolates the defect to the per-detector line. -/
theorem claim_c7_detector_clamp_never_runs :
    (setWavelengths sWithTables [5000]).1 =
      some (PyErr.typeError "interp1d call takes 2 positional arguments but 3 were given") ∧
    (setWavelengths sWithTables [5000]).2.band_tput_interp = some [("g", [1])] ∧
    (setWavelengths sWithTables [5000]).2.band_ccd_interp = some [("g", [[0]])] := by
  refine ⟨rfl, ?_, rfl⟩
  show (setWavelengths sWithTables [5000]).2.band_tput_interp = some [("g", [1])]
  norm_num [setWavelengths, sWithTables, sDemo, setWavelengthsBody, swLoop, gBandTbl,
    dictGet?, List.find?, interp1dNew, interp1dEval, interp1dEvalPoint, interpSearch,
    List.mapM, List.mapM.loop, npClip, bigBound, dictInsert, npZeros, ccdInner,
    getColumn, interp1dCallExtraArg, npClipNoBounds]
  rfl

/-- Claim C8 fails on the code: no `get_transmission` or
`get_std_transmission` call ever returns a sequence of any length,
because no engine exists to call them on — for every instrument file and
every atmosphere table, `__init__` raises `IndexError` (row-0/row-1 reads
for tables shorter than two rows, the `atm_data[2:, :]` slice
otherwise). -/
theorem claim_c8_no_call_ever_returns (ccdHdus : List (String × CcdBandData))
    (atmRows : List AtmRow) :
    ∃ msg, initState ccdHdus atmRows = Except.error (PyErr.indexError msg) :=
  initState_always_raises ccdHdus atmRows

/-- Claim C9 fails on the code: loading the five DES band extensions
would record bands g, r, i, z, Y and the atmosphere file does contain
exposure 226650, but the scenario engine is never constructed —
`__init__` raises `IndexError` in `_read_atm_file` — so the scenario call
`get_transmission("g", 226650, 1)` (and the default 3000-11000 Angstrom
grid the claim assumes) never comes into existence. -/
theorem claim_c9_scenario_never_constructs :
    (readCcdLoop ccd5 [] [] none).2.1 = ["g", "r", "i", "z", "Y"] ∧
    ((atmDemo.drop 2).any fun r => r.expnum = 226650) = true ∧
    initState ccd5 atmDemo =
      Except.error (PyErr.indexError
        "too many indices for array: array is 1-dimensional, but 2 were indexed") :=
  ⟨rfl, rfl, rfl⟩

end Fdest
